import Mathlib

/-!
Verification of the AccessGuru accessibility-scanner core.

The definitions below are a shallow embedding of the JavaScript sources:
  popup.js        (weighted scoring, enrichment orchestration, report assembly)
  api-service.js  (remote enrichment boundary and its local fallback)
  overlay.js      (element correlation, overlay lifecycle, side panel, accordion)

JavaScript numbers are idealised as rationals and reals; DOM queries are
modelled as an explicit function from selector strings to an optional
element identifier; network outcomes are passed in explicitly as values of
an Except type, so the event-loop concurrency of the original collapses to
deterministic functions of those outcomes.
-/

namespace AccessGuru

/-! ## Data model (shapes used by popup.js, api-service.js and overlay.js) -/

/-- Prediction payload attached to a finding. Covers both remote results
(fields predicted_score and prediction_probability) and locally produced
ones (fields score and confidence); absent fields are none, mirroring the
optional-chaining reads in the source. -/
structure MLPrediction where
  predicted_score : Option ℚ
  score : Option ℚ
  prediction_probability : Option ℚ
  confidence : Option ℚ
  originalImpact : Option String
deriving DecidableEq, Repr

/-- Structured explanation produced by MLModels.generateExplanation. -/
structure Explanation where
  what : String
  who : List String
  why : String
  how : List String
deriving DecidableEq, Repr

/-- SHAP payload; the entries are carried opaquely as strings since no
claim inspects their internal structure. -/
structure ShapData where
  topFeatures : List String
  reasons : List String
deriving DecidableEq, Repr

/-- The mlAnalysis object the popup attaches to each violation. The
severity field carries an optional rationale, opaque to every claim. -/
structure MLAnalysis where
  prediction : Option MLPrediction
  explanation : Option Explanation
  severity : Option String
  shap : Option ShapData
deriving DecidableEq, Repr

/-- One axe-core node: an ordered candidate selector list plus an HTML
snippet for context. -/
structure AxeNode where
  target : List String
  html : String
deriving DecidableEq, Repr

/-- One axe-core violation (a Finding). The nodes field is optional to
mirror the v.nodes?.length reads in the source; mlAnalysis is filled in by
enhanceWithML. -/
structure Violation where
  id : String
  impact : String
  description : String
  help : String
  nodes : Option (List AxeNode)
  mlAnalysis : Option MLAnalysis
deriving DecidableEq, Repr

/-! ## Weighted score (popup.js, lines 209-260) -/

/-- popup.js mapImpactToScore: map critical, serious, moderate, minor to
5, 4, 3, 2; anything else defaults to 3. -/
def mapImpactToScore (impact : String) : ℚ :=
  if impact = "critical" then 5
  else if impact = "serious" then 4
  else if impact = "moderate" then 3
  else if impact = "minor" then 2
  else 3

/-- popup.js getPredictedSeverityScore: read
mlAnalysis?.prediction?.predicted_score ?? mlAnalysis?.prediction?.score,
falling back to mapImpactToScore on the impact string. -/
def getPredictedSeverityScore (v : Violation) : ℚ :=
  match (v.mlAnalysis.bind (fun a => a.prediction)).bind
      (fun p => p.predicted_score.orElse (fun _ => p.score)) with
  | some s => s
  | none => mapImpactToScore v.impact

/-- popup.js getPredictionConfidence: read
mlAnalysis?.prediction?.prediction_probability ?? confidence, clamp to
the unit interval, default 0.75. -/
def getPredictionConfidence (v : Violation) : ℚ :=
  match (v.mlAnalysis.bind (fun a => a.prediction)).bind
      (fun p => p.prediction_probability.orElse (fun _ => p.confidence)) with
  | some c => max 0 (min 1 c)
  | none => 3 / 4

/-- popup.js severityWeight: the map with entries 2 to 2, 3 to 5, 4 to 10,
5 to 18, defaulting to 5. -/
def severityWeight (s : ℚ) : ℚ :=
  if s = 2 then 2
  else if s = 3 then 5
  else if s = 4 then 10
  else if s = 5 then 18
  else 5

/-- The clamped instance count inside popup.js instanceMultiplier:
Math.min(Math.max(n || 1, 1), 20). -/
def cappedInstances (n : ℕ) : ℕ :=
  min (max (if n = 0 then 1 else n) 1) 20

/-- popup.js instanceMultiplier: 1 + log2(capped) / 3. -/
noncomputable def instanceMultiplier (n : ℕ) : ℝ :=
  1 + Real.logb 2 (cappedInstances n) / 3

/-- popup.js confidenceMultiplier: 0.6 + 0.4 * c. -/
def confidenceMultiplier (c : ℚ) : ℚ :=
  3 / 5 + 2 / 5 * c

/-- The instance count read in computeAccessibilityScore0to100:
v.nodes?.length || 1. -/
def instCount (v : Violation) : ℕ :=
  match v.nodes with
  | some ns => if ns.length = 0 then 1 else ns.length
  | none => 1

/-- The per-finding penalty accumulated by
computeAccessibilityScore0to100. -/
noncomputable def penalty (v : Violation) : ℝ :=
  (severityWeight (getPredictedSeverityScore v) : ℝ)
    * instanceMultiplier (instCount v)
    * (confidenceMultiplier (getPredictionConfidence v) : ℝ)

/-- The totalPenalty accumulator of computeAccessibilityScore0to100. -/
noncomputable def totalPenalty (vs : List Violation) : ℝ :=
  (vs.map penalty).sum

/-- JavaScript Math.round on reals: floor of x + 1/2 (halves round up). -/
noncomputable def jsRound (x : ℝ) : ℤ :=
  ⌊x + 1 / 2⌋

/-- popup.js computeAccessibilityScore0to100:
Math.round(Math.max(0, Math.min(100, 100 * exp(-totalPenalty / 65)))). -/
noncomputable def computeAccessibilityScore0to100 (vs : List Violation) : ℤ :=
  jsRound (max 0 (min 100 (100 * Real.exp (-(totalPenalty vs) / 65))))

/-- popup.js estimateUserImpactFromSeverity: severity to percentage map
2 to 15, 3 to 35, 4 to 60, 5 to 85, default 35. -/
def estimateUserImpactFromSeverity (v : Violation) : ℚ :=
  let s := getPredictedSeverityScore v
  if s = 2 then 15
  else if s = 3 then 35
  else if s = 4 then 60
  else if s = 5 then 85
  else 35

/-! ## Spec-side score (written from the words of spec section 4.1, for
the refinement claim C1; everything above is from the source) -/

/-- A finding as the spec describes it for scoring: a severity, an
instance count and a confidence. -/
structure SpecFinding where
  severity : ℚ
  instanceCount : ℕ
  confidence : ℚ
deriving DecidableEq, Repr

/-- Spec severityWeight: fixed lookup 2 to 2, 3 to 5, 4 to 10, 5 to 18;
unknown severities default to the moderate weight 5. -/
def specSeverityWeight (s : ℚ) : ℚ :=
  if s = 2 then 2
  else if s = 3 then 5
  else if s = 4 then 10
  else if s = 5 then 18
  else 5

/-- Spec instanceMultiplier: clamp n to the interval from 1 to 20 and
return 1 + log2(n) / 3. -/
noncomputable def specInstanceMultiplier (n : ℕ) : ℝ :=
  1 + Real.logb 2 (min (max n 1) 20) / 3

/-- Spec confidenceMultiplier: 0.6 + 0.4 * c. -/
def specConfidenceMultiplier (c : ℚ) : ℚ :=
  3 / 5 + 2 / 5 * c

/-- Spec penalty of one finding. -/
noncomputable def specPenalty (f : SpecFinding) : ℝ :=
  (specSeverityWeight f.severity : ℝ)
    * specInstanceMultiplier f.instanceCount
    * (specConfidenceMultiplier f.confidence : ℝ)

/-- Spec clamp of x to the interval from lo to hi. -/
noncomputable def specClamp (x lo hi : ℝ) : ℝ :=
  max lo (min hi x)

/-- Spec aggregate score: round(clamp(100 * exp(-totalPenalty / 65), 0, 100)). -/
noncomputable def specAggregateScore (fs : List SpecFinding) : ℤ :=
  jsRound (specClamp (100 * Real.exp (-((fs.map specPenalty).sum) / 65)) 0 100)

/-- The severity, instance count and confidence the code extracts from an
enriched finding, packaged as a spec-level finding. -/
def toSpecFinding (v : Violation) : SpecFinding :=
  { severity := getPredictedSeverityScore v
    instanceCount := instCount v
    confidence := getPredictionConfidence v }

/-! ## Enrichment pipeline (popup.js enhanceWithML, lines 352-419, and the
static fallback getStaticMLAnalysis, lines 425-439) -/

/-- MLModels._mapImpactToScore (popup.js lines 136-144): same lookup as
mapImpactToScore. -/
def mlMapImpactToScore (impact : String) : ℚ :=
  if impact = "critical" then 5
  else if impact = "serious" then 4
  else if impact = "moderate" then 3
  else if impact = "minor" then 2
  else 3

/-- JavaScript String.prototype.includes for a nonempty needle: splitting
on the needle yields more than one part exactly when it occurs. -/
def jsIncludes (s needle : String) : Bool :=
  (s.splitOn needle).length != 1

/-- MLModels.generateExplanation (popup.js lines 93-134): pick the first
template whose key occurs in the violation id, in the order image-alt,
color-contrast, link-name; otherwise a default built from the violation. -/
def generateExplanation (v : Violation) : Explanation :=
  if jsIncludes v.id "image-alt" then
    { what := "Images are missing descriptive alternative text"
      who := ["Blind users using screen readers", "Users with images disabled"]
      why := "Screen readers cannot convey image content without alt text"
      how := ["Add descriptive alt=\"\" attributes to images",
              "Describe the purpose and content of the image"] }
  else if jsIncludes v.id "color-contrast" then
    { what := "Text does not have sufficient contrast against its background"
      who := ["Low vision users", "Color blind users", "Users viewing in bright sunlight"]
      why := "Insufficient contrast makes text difficult or impossible to read"
      how := ["Increase contrast ratio to at least 4.5:1",
              "Use darker text or lighter backgrounds"] }
  else if jsIncludes v.id "link-name" then
    { what := "Links lack descriptive text"
      who := ["Screen reader users", "Keyboard navigation users"]
      why := "Generic link text like \"click here\" does not provide context"
      how := ["Use descriptive link text that explains the destination",
              "Avoid generic phrases like \"click here\" or \"read more\""] }
  else
    { what := v.description
      who := ["Users with disabilities"]
      why := "This violates WCAG accessibility guidelines"
      how := ["Review WCAG documentation", "Fix the reported issue"] }

/-- popup.js getStaticMLAnalysis: the local fallback enrichment, with
confidence 0.75 and a severity score derived from the impact category. -/
def getStaticMLAnalysis (v : Violation) : MLAnalysis :=
  { prediction := some
      { predicted_score := none
        score := some (mlMapImpactToScore v.impact)
        prediction_probability := none
        confidence := some (3 / 4)
        originalImpact := some v.impact }
    explanation := some (generateExplanation v)
    severity := none
    shap := some { topFeatures := [], reasons := [] } }

/-- The mlEnhanced object returned by api-service.js enhanceViolation on
success. -/
structure MLEnhanced where
  prediction : Option MLPrediction
  explanation : Option Explanation
  severity : Option String
  shap : Option ShapData
deriving DecidableEq, Repr

/-- The full return value of accessGuruAPI.enhanceViolation as read by the
popup: a spread violation plus an optional mlEnhanced payload. -/
structure ApiEnhanced where
  mlEnhanced : Option MLEnhanced
deriving DecidableEq, Repr

/-- The popup success branch (popup.js lines 377-382): project the four
optional fields of mlData.mlEnhanced into the mlAnalysis attached to the
violation, missing fields becoming null. -/
def mergeRemote (d : ApiEnhanced) : MLAnalysis :=
  { prediction := d.mlEnhanced.bind (fun m => m.prediction)
    explanation := d.mlEnhanced.bind (fun m => m.explanation)
    severity := d.mlEnhanced.bind (fun m => m.severity)
    shap := d.mlEnhanced.bind (fun m => m.shap) }

/-- Enrichment of one violation (the body of the Promise.all callback in
popup.js lines 361-392): on a healthy probe use the remote outcome,
falling back to getStaticMLAnalysis if that individual call failed; on a
failed probe always use getStaticMLAnalysis. -/
def enhanceOne (useML : Bool) (remote : Except Unit ApiEnhanced) (v : Violation) : Violation :=
  if useML then
    match remote with
    | Except.ok d => { v with mlAnalysis := some (mergeRemote d) }
    | Except.error _ => { v with mlAnalysis := some (getStaticMLAnalysis v) }
  else
    { v with mlAnalysis := some (getStaticMLAnalysis v) }

/-- Promise.all(violations.map(...)): each violation is enriched with the
outcome of its own request, and the result list keeps the input order;
the remote argument gives the outcome of the request issued for the
violation at each input position. -/
def enhanceList (useML : Bool) (remote : ℕ → Except Unit ApiEnhanced) :
    List Violation → ℕ → List Violation
  | [], _ => []
  | v :: vs, i => enhanceOne useML (remote i) v :: enhanceList useML remote vs (i + 1)

/-- JavaScript Math.round on a rational value. -/
def jsRoundQ (x : ℚ) : ℤ :=
  ⌊x + 1 / 2⌋

/-- The object returned by enhanceWithML (popup.js lines 407-418): the
per-scan ScoreReport together with the enriched violation list. -/
structure EnhanceReport where
  violations : List Violation
  score : ℤ
  totalViolations : ℕ
  criticalCount : ℕ
  seriousCount : ℕ
  moderateCount : ℕ
  avgImpact : ℤ
  url : String
  timestamp : String
  usingMLAPI : Bool
deriving Repr

/-- popup.js enhanceWithML: the health probe outcome arrives as useML, the
per-violation request outcomes as remote, and the clock reading taken at
line 416 as timestamp. -/
noncomputable def enhanceWithML (violations : List Violation) (url timestamp : String)
    (useML : Bool) (remote : ℕ → Except Unit ApiEnhanced) : EnhanceReport :=
  let enhancedViolations := enhanceList useML remote violations 0
  let totalViolations := violations.length
  let totalImpact : ℚ := (enhancedViolations.map estimateUserImpactFromSeverity).sum
  { violations := enhancedViolations
    score := computeAccessibilityScore0to100 enhancedViolations
    totalViolations := totalViolations
    criticalCount := (violations.filter (fun v => v.impact == "critical")).length
    seriousCount := (violations.filter (fun v => v.impact == "serious")).length
    moderateCount := (violations.filter (fun v => v.impact == "moderate")).length
    avgImpact := if 0 < totalViolations then jsRoundQ (totalImpact / totalViolations) else 0
    url := url
    timestamp := timestamp
    usingMLAPI := useML }

/-! ## Overlay system (overlay.js; the second, overriding definition of
highlightViolations at lines 840-911, removeAllOverlays at lines 729-751,
and the accordion handler inside populateViolationsList, lines 413-437) -/

/-- A DOM snapshot for selector resolution: document.querySelector either
finds an element (identified by a number) or nothing. -/
def DomQuery : Type := String → Option ℕ

/-- Resolution of one node inside highlightViolations: if the target list
is empty the node is skipped, otherwise only the FIRST selector is passed
to document.querySelector. -/
def resolveNode (q : DomQuery) (node : AxeNode) : Option ℕ :=
  match node.target with
  | [] => none
  | sel :: _ => q sel

/-- The elements highlighted for one violation: every node whose first
selector resolves. -/
def violationHighlights (q : DomQuery) (v : Violation) : List ℕ :=
  match v.nodes with
  | none => []
  | some ns => ns.filterMap (resolveNode q)

/-- The overlay DOM nodes created for a violation list: createHighlight
appends two nodes (the border region and the info icon) per resolved
element. -/
def createdNodes (q : DomQuery) (vs : List Violation) : List ℕ :=
  (vs.map (fun v => (violationHighlights q v).map (fun e => [e, e]))).flatten.flatten

/-- The ambient overlay state of overlay.js: the overlayElements array,
the shared tooltip, the side panel with its rendered violation list, the
window-level listener registrations, and the two global flags. -/
structure OverlayState where
  overlayElements : List ℕ
  tooltip : Bool
  sidePanel : Option (List Violation)
  windowListeners : List String
  listenersAdded : Bool
  overlayInjected : Bool
deriving DecidableEq, Repr

/-- State right after overlay.js is injected: nothing rendered, no
listeners, injected flag set by the IIFE guard. -/
def initialOverlayState : OverlayState :=
  { overlayElements := []
    tooltip := false
    sidePanel := none
    windowListeners := []
    listenersAdded := false
    overlayInjected := true }

/-- window.addEventListener: registering the same handler twice is a
no-op, so the registration list is only extended when absent. -/
def addListener (ls : List String) (name : String) : List String :=
  if name ∈ ls then ls else ls ++ [name]

/-- overlay.js highlightViolations (second definition): guard on an empty
list, create and populate the side panel, create highlights for every
node whose first selector resolves, and add the resize and scroll
listeners once, guarded by the accessGuruListenersAdded flag. -/
def highlightViolations (q : DomQuery) (vs : List Violation) (st : OverlayState) :
    OverlayState :=
  if vs = [] then st
  else
    { st with
      sidePanel := some vs
      overlayElements := st.overlayElements ++ createdNodes q vs
      windowListeners :=
        if st.listenersAdded then st.windowListeners
        else addListener (addListener st.windowListeners "resize") "scroll"
      listenersAdded := true }

/-- overlay.js removeAllOverlays: remove every tracked overlay node, the
tooltip and the side panel, and reset both global flags. The window
resize and scroll listener registrations are left untouched: the source
contains no removeEventListener call. -/
def removeAllOverlays (st : OverlayState) : OverlayState :=
  { overlayElements := []
    tooltip := false
    sidePanel := none
    windowListeners := st.windowListeners
    listenersAdded := false
    overlayInjected := false }

/-- The accordion click handler inside populateViolationsList: clicking an
expanded header collapses just that entry; clicking a collapsed header
first collapses every entry and then expands the clicked one. The state
maps each entry index to whether its body is expanded. -/
def accordionClick (s : ℕ → Bool) (i : ℕ) : ℕ → Bool :=
  if s i then fun j => if j = i then false else s j
  else fun j => j == i

/-- Mutual exclusion: at most one accordion entry is expanded. -/
def atMostOneOpen (s : ℕ → Bool) : Prop :=
  ∀ j k, s j = true → s k = true → j = k

/-! ## The worked three-finding example of spec section 8 -/

/-- Critical finding, one instance, confidence 0.9. -/
def exCritical : Violation :=
  { id := "ex-critical"
    impact := "critical"
    description := ""
    help := ""
    nodes := some [{ target := ["#c1"], html := "" }]
    mlAnalysis := some
      { prediction := some
          { predicted_score := some 5
            score := none
            prediction_probability := some (9 / 10)
            confidence := none
            originalImpact := none }
        explanation := none
        severity := none
        shap := none } }

/-- Moderate finding, five instances, confidence 0.8. -/
def exModerate : Violation :=
  { id := "ex-moderate"
    impact := "moderate"
    description := ""
    help := ""
    nodes := some [{ target := ["#m1"], html := "" }, { target := ["#m2"], html := "" },
      { target := ["#m3"], html := "" }, { target := ["#m4"], html := "" },
      { target := ["#m5"], html := "" }]
    mlAnalysis := some
      { prediction := some
          { predicted_score := some 3
            score := none
            prediction_probability := some (8 / 10)
            confidence := none
            originalImpact := none }
        explanation := none
        severity := none
        shap := none } }

/-- Minor finding, one instance, confidence 0.5. -/
def exMinor : Violation :=
  { id := "ex-minor"
    impact := "minor"
    description := ""
    help := ""
    nodes := some [{ target := ["#n1"], html := "" }]
    mlAnalysis := some
      { prediction := some
          { predicted_score := some 2
            score := none
            prediction_probability := some (1 / 2)
            confidence := none
            originalImpact := none }
        explanation := none
        severity := none
        shap := none } }

/-- A worst-case finding: severity 5 with full confidence and one
instance, used to exhibit lists whose rounded score is exactly zero. -/
def vMax : Violation :=
  { id := "v-max"
    impact := "critical"
    description := ""
    help := ""
    nodes := some [{ target := ["#x"], html := "" }]
    mlAnalysis := some
      { prediction := some
          { predicted_score := some 5
            score := none
            prediction_probability := some 1
            confidence := none
            originalImpact := none }
        explanation := none
        severity := none
        shap := none } }

/-- A serious finding with confidence 0.5 and one instance, companion to
exMinor for severity-monotonicity instantiations. -/
def vSeriousHalf : Violation :=
  { id := "v-serious-half"
    impact := "serious"
    description := ""
    help := ""
    nodes := some [{ target := ["#s"], html := "" }]
    mlAnalysis := some
      { prediction := some
          { predicted_score := some 4
            score := none
            prediction_probability := some (1 / 2)
            confidence := none
            originalImpact := none }
        explanation := none
        severity := none
        shap := none } }

/-- A finding with no nodes at all, for the implicit default-instance
claim. -/
def vNoNodes : Violation :=
  { id := "v-no-nodes"
    impact := "serious"
    description := ""
    help := ""
    nodes := none
    mlAnalysis := none }

/-- A DOM snapshot in which only the selector named second matches. -/
def qTwo : DomQuery :=
  fun s => if s = "#second" then some 7 else none

/-- A node whose FIRST selector does not match qTwo but whose SECOND
selector does. -/
def nodeTwo : AxeNode :=
  { target := ["#first", "#second"], html := "" }

/-- A violation holding nodeTwo as its only instance. -/
def vTwo : Violation :=
  { id := "v-two"
    impact := "serious"
    description := ""
    help := ""
    nodes := some [nodeTwo]
    mlAnalysis := none }

/-- A DOM snapshot in which every selector matches some element. -/
def qAll : DomQuery :=
  fun _ => some 3

/-- A remote enrichment payload carrying no mlEnhanced object. -/
def apiPayloadW : ApiEnhanced :=
  { mlEnhanced := none }

/-- A remote-outcome oracle whose request for position 0 succeeds and
whose request for every other position fails. -/
def remoteW : ℕ → Except Unit ApiEnhanced :=
  fun i => if i = 0 then Except.ok apiPayloadW else Except.error ()

/-- Remote-outcome oracle where every request fails. -/
def remoteFail : ℕ → Except Unit ApiEnhanced :=
  fun _ => Except.error ()

/-! ## Elementary bounds on the scoring ingredients -/

lemma severityWeight_ge_two (s : ℚ) : 2 ≤ severityWeight s := by
  unfold severityWeight
  split_ifs <;> norm_num

lemma severityWeight_le_eighteen (s : ℚ) : severityWeight s ≤ 18 := by
  unfold severityWeight
  split_ifs <;> norm_num

lemma getPredictionConfidence_nonneg (v : Violation) : 0 ≤ getPredictionConfidence v := by
  unfold getPredictionConfidence
  rcases (v.mlAnalysis.bind (fun a => a.prediction)).bind
      (fun p => p.prediction_probability.orElse (fun _ => p.confidence)) with _ | c
  · norm_num
  · exact le_max_left 0 _

lemma getPredictionConfidence_le_one (v : Violation) : getPredictionConfidence v ≤ 1 := by
  unfold getPredictionConfidence
  rcases (v.mlAnalysis.bind (fun a => a.prediction)).bind
      (fun p => p.prediction_probability.orElse (fun _ => p.confidence)) with _ | c
  · norm_num
  · exact max_le (by norm_num) (min_le_left 1 c)

lemma confidenceMultiplier_lb {c : ℚ} (h : 0 ≤ c) : 3 / 5 ≤ confidenceMultiplier c := by
  unfold confidenceMultiplier
  linarith

lemma confidenceMultiplier_ub {c : ℚ} (h : c ≤ 1) : confidenceMultiplier c ≤ 1 := by
  unfold confidenceMultiplier
  linarith

lemma confidenceMultiplier_strictMono {c c' : ℚ} (h : c < c') :
    confidenceMultiplier c < confidenceMultiplier c' := by
  unfold confidenceMultiplier
  linarith

lemma cappedInstances_ge_one (n : ℕ) : 1 ≤ cappedInstances n := by
  unfold cappedInstances
  omega

lemma cappedInstances_le_twenty (n : ℕ) : cappedInstances n ≤ 20 := by
  unfold cappedInstances
  omega

lemma cappedInstances_mono {n m : ℕ} (h : n ≤ m) : cappedInstances n ≤ cappedInstances m := by
  unfold cappedInstances
  split_ifs <;> omega

lemma cappedInstances_eq_max_min (n : ℕ) : cappedInstances n = min (max n 1) 20 := by
  unfold cappedInstances
  split_ifs <;> omega

lemma instanceMultiplier_ge_one (n : ℕ) : 1 ≤ instanceMultiplier n := by
  unfold instanceMultiplier
  have h : 0 ≤ Real.logb 2 (cappedInstances n) := by
    apply Real.logb_nonneg (by norm_num)
    exact_mod_cast cappedInstances_ge_one n
  linarith

lemma logb_two_thirtytwo : Real.logb 2 32 = 5 := by
  have h32 : (32 : ℝ) = 2 ^ (5 : ℕ) := by norm_num
  rw [h32, Real.logb_pow, Real.logb_self_eq_one (by norm_num)]
  norm_num

lemma instanceMultiplier_le (n : ℕ) : instanceMultiplier n ≤ 8 / 3 := by
  unfold instanceMultiplier
  have hpos : (0 : ℝ) < (cappedInstances n : ℝ) := by
    exact_mod_cast Nat.lt_of_lt_of_le Nat.zero_lt_one (cappedInstances_ge_one n)
  have hle : ((cappedInstances n : ℕ) : ℝ) ≤ 32 := by
    have := cappedInstances_le_twenty n
    have : ((cappedInstances n : ℕ) : ℝ) ≤ 20 := by exact_mod_cast this
    linarith
  have h := Real.logb_le_logb_of_le (b := 2) (by norm_num) hpos hle
  rw [logb_two_thirtytwo] at h
  linarith

lemma instanceMultiplier_mono {n m : ℕ} (h : n ≤ m) :
    instanceMultiplier n ≤ instanceMultiplier m := by
  unfold instanceMultiplier
  have hpos : (0 : ℝ) < (cappedInstances n : ℝ) := by
    exact_mod_cast Nat.lt_of_lt_of_le Nat.zero_lt_one (cappedInstances_ge_one n)
  have hle : ((cappedInstances n : ℕ) : ℝ) ≤ (cappedInstances m : ℝ) := by
    exact_mod_cast cappedInstances_mono h
  have := Real.logb_le_logb_of_le (b := 2) (by norm_num) hpos hle
  linarith

lemma instanceMultiplier_one : instanceMultiplier 1 = 1 := by
  unfold instanceMultiplier
  have h1 : cappedInstances 1 = 1 := by decide
  rw [h1]
  simp [Real.logb_one]

lemma confidenceMultiplier_cast_lb (v : Violation) :
    (3 / 5 : ℝ) ≤ (confidenceMultiplier (getPredictionConfidence v) : ℝ) := by
  have h := (Rat.cast_le (K := ℝ)).mpr
    (confidenceMultiplier_lb (getPredictionConfidence_nonneg v))
  push_cast at h
  linarith

lemma confidenceMultiplier_cast_ub (v : Violation) :
    (confidenceMultiplier (getPredictionConfidence v) : ℝ) ≤ 1 := by
  have h := (Rat.cast_le (K := ℝ)).mpr
    (confidenceMultiplier_ub (getPredictionConfidence_le_one v))
  push_cast at h
  linarith

lemma severityWeight_cast_lb (s : ℚ) : (2 : ℝ) ≤ (severityWeight s : ℝ) := by
  exact_mod_cast severityWeight_ge_two s

lemma severityWeight_cast_ub (s : ℚ) : (severityWeight s : ℝ) ≤ 18 := by
  exact_mod_cast severityWeight_le_eighteen s

lemma penalty_pos (v : Violation) : 0 < penalty v := by
  unfold penalty
  have hw : (0 : ℝ) < (severityWeight (getPredictedSeverityScore v) : ℝ) :=
    lt_of_lt_of_le (by norm_num) (severityWeight_cast_lb _)
  have hm : (0 : ℝ) < instanceMultiplier (instCount v) :=
    lt_of_lt_of_le (by norm_num) (instanceMultiplier_ge_one _)
  have hc : (0 : ℝ) < (confidenceMultiplier (getPredictionConfidence v) : ℝ) :=
    lt_of_lt_of_le (by norm_num) (confidenceMultiplier_cast_lb v)
  exact mul_pos (mul_pos hw hm) hc

lemma penalty_le (v : Violation) : penalty v ≤ 48 := by
  unfold penalty
  have hw0 : (0 : ℝ) ≤ (severityWeight (getPredictedSeverityScore v) : ℝ) :=
    le_trans (by norm_num) (severityWeight_cast_lb _)
  have hw := severityWeight_cast_ub (getPredictedSeverityScore v)
  have hm0 : (0 : ℝ) ≤ instanceMultiplier (instCount v) :=
    le_trans (by norm_num) (instanceMultiplier_ge_one _)
  have hm := instanceMultiplier_le (instCount v)
  have hc0 : (0 : ℝ) ≤ (confidenceMultiplier (getPredictionConfidence v) : ℝ) :=
    le_trans (by norm_num) (confidenceMultiplier_cast_lb v)
  have hc := confidenceMultiplier_cast_ub v
  calc (severityWeight (getPredictedSeverityScore v) : ℝ)
        * instanceMultiplier (instCount v)
        * (confidenceMultiplier (getPredictionConfidence v) : ℝ)
      ≤ 18 * (8 / 3)
        * (confidenceMultiplier (getPredictionConfidence v) : ℝ) := by
        apply mul_le_mul_of_nonneg_right _ hc0
        exact mul_le_mul hw hm hm0 (by norm_num)
    _ ≤ 18 * (8 / 3) * 1 := by
        apply mul_le_mul_of_nonneg_left hc (by norm_num)
    _ = 48 := by norm_num

lemma totalPenalty_nil : totalPenalty [] = 0 := rfl

lemma totalPenalty_cons (v : Violation) (vs : List Violation) :
    totalPenalty (v :: vs) = penalty v + totalPenalty vs := by
  simp [totalPenalty]

lemma totalPenalty_append (xs ys : List Violation) :
    totalPenalty (xs ++ ys) = totalPenalty xs + totalPenalty ys := by
  simp [totalPenalty]

lemma totalPenalty_nonneg (vs : List Violation) : 0 ≤ totalPenalty vs := by
  induction vs with
  | nil => simp [totalPenalty_nil]
  | cons v vs ih =>
    rw [totalPenalty_cons]
    have := penalty_pos v
    linarith

lemma totalPenalty_replicate (n : ℕ) (v : Violation) :
    totalPenalty (List.replicate n v) = n * penalty v := by
  induction n with
  | zero => simp [totalPenalty_nil]
  | succ k ih =>
    rw [List.replicate_succ, totalPenalty_cons, ih]
    push_cast
    ring

/-! ## Facts about jsRound and the clamp -/

lemma jsRound_eq {x : ℝ} {z : ℤ} (h1 : (z : ℝ) ≤ x + 1 / 2) (h2 : x + 1 / 2 < z + 1) :
    jsRound x = z := by
  unfold jsRound
  exact Int.floor_eq_iff.mpr ⟨h1, h2⟩

lemma jsRound_mono {x y : ℝ} (h : x ≤ y) : jsRound x ≤ jsRound y := by
  unfold jsRound
  exact Int.floor_le_floor (by linarith)

lemma jsRound_nonneg {x : ℝ} (h : 0 ≤ x) : 0 ≤ jsRound x := by
  unfold jsRound
  exact Int.le_floor.mpr (by push_cast; linarith)

lemma jsRound_le_hundred {x : ℝ} (h : x ≤ 100) : jsRound x ≤ 100 := by
  unfold jsRound
  have : (⌊x + 1 / 2⌋ : ℤ) < 101 := Int.floor_lt.mpr (by push_cast; linarith)
  omega

/-- The clamp in the score is inert: with a nonnegative total penalty the
raw value 100 * exp(-t/65) already lies in the interval (0, 100]. -/
lemma score_eq_unclamped (vs : List Violation) :
    computeAccessibilityScore0to100 vs
      = jsRound (100 * Real.exp (-(totalPenalty vs) / 65)) := by
  unfold computeAccessibilityScore0to100
  have ht := totalPenalty_nonneg vs
  have hexp : Real.exp (-(totalPenalty vs) / 65) ≤ 1 := by
    rw [show (1 : ℝ) = Real.exp 0 by simp]
    apply Real.exp_le_exp.mpr
    linarith
  have hpos : 0 < Real.exp (-(totalPenalty vs) / 65) := Real.exp_pos _
  have hmin : min 100 (100 * Real.exp (-(totalPenalty vs) / 65))
      = 100 * Real.exp (-(totalPenalty vs) / 65) := by
    apply min_eq_right
    linarith
  rw [hmin, max_eq_right (by linarith)]

lemma score_nonneg (vs : List Violation) : 0 ≤ computeAccessibilityScore0to100 vs := by
  unfold computeAccessibilityScore0to100
  apply jsRound_nonneg
  exact le_max_left 0 _

lemma score_le_hundred (vs : List Violation) : computeAccessibilityScore0to100 vs ≤ 100 := by
  unfold computeAccessibilityScore0to100
  apply jsRound_le_hundred
  apply max_le (by norm_num)
  exact min_le_left _ _

lemma score_antitone {vs vs' : List Violation}
    (h : totalPenalty vs ≤ totalPenalty vs') :
    computeAccessibilityScore0to100 vs' ≤ computeAccessibilityScore0to100 vs := by
  rw [score_eq_unclamped, score_eq_unclamped]
  apply jsRound_mono
  have := Real.exp_le_exp.mpr (show -(totalPenalty vs') / 65 ≤ -(totalPenalty vs) / 65 by
    linarith)
  linarith

/-- A total penalty of at least 1755 drives the rounded score to exactly
zero, because exp(1755/65) = exp 27 is at least 2 to the 27th. -/
lemma score_eq_zero_of_large {vs : List Violation} (h : 1755 ≤ totalPenalty vs) :
    computeAccessibilityScore0to100 vs = 0 := by
  rw [score_eq_unclamped]
  have hexp27 : (200 : ℝ) < Real.exp 27 := by
    have h1 : (2 : ℝ) ≤ Real.exp 1 := by
      have := Real.add_one_le_exp (1 : ℝ)
      linarith
    have h2 : Real.exp 27 = Real.exp 1 ^ (27 : ℕ) := by
      rw [← Real.exp_nat_mul]
      norm_num
    have h3 : (2 : ℝ) ^ (27 : ℕ) ≤ Real.exp 1 ^ (27 : ℕ) :=
      pow_le_pow_left₀ (by norm_num) h1 27
    have h4 : (200 : ℝ) < 2 ^ (27 : ℕ) := by norm_num
    rw [h2]
    linarith
  have hmono : Real.exp 27 ≤ Real.exp (totalPenalty vs / 65) := by
    apply Real.exp_le_exp.mpr
    linarith
  have h200 : (200 : ℝ) < Real.exp (totalPenalty vs / 65) := lt_of_lt_of_le hexp27 hmono
  have hlt : 100 * Real.exp (-(totalPenalty vs) / 65) < 1 / 2 := by
    rw [show -(totalPenalty vs) / 65 = -(totalPenalty vs / 65) by ring, Real.exp_neg]
    have hinv : (Real.exp (totalPenalty vs / 65))⁻¹ < (200 : ℝ)⁻¹ :=
      inv_lt_inv_of_lt (by norm_num) h200
    have := mul_lt_mul_of_pos_left hinv (show (0 : ℝ) < 100 by norm_num)
    have h12 : (100 : ℝ) * (200 : ℝ)⁻¹ = 1 / 2 := by norm_num
    linarith
  have hpos : 0 < 100 * Real.exp (-(totalPenalty vs) / 65) := by positivity
  exact jsRound_eq (by push_cast; linarith) (by push_cast; linarith)

/-! ## Numeric certificates: bounds on log2(5) and two exponential values,
used to pin down the worked example of the spec -/

lemma log_two_pos : (0 : ℝ) < Real.log 2 := Real.log_pos (by norm_num)

lemma logb_two_five_lt : Real.logb 2 5 < 7 / 3 := by
  unfold Real.logb
  rw [div_lt_iff log_two_pos]
  have h1 : (3 : ℝ) * Real.log 5 < 7 * Real.log 2 := by
    have h125 : Real.log ((5 : ℝ) ^ (3 : ℕ)) < Real.log ((2 : ℝ) ^ (7 : ℕ)) := by
      apply Real.log_lt_log (by norm_num)
      norm_num
    rw [Real.log_pow, Real.log_pow] at h125
    push_cast at h125
    linarith
  linarith

lemma logb_two_five_gt : 16 / 7 < Real.logb 2 5 := by
  unfold Real.logb
  rw [lt_div_iff log_two_pos]
  have h1 : (16 : ℝ) * Real.log 2 < 7 * Real.log 5 := by
    have h : Real.log ((2 : ℝ) ^ (16 : ℕ)) < Real.log ((5 : ℝ) ^ (7 : ℕ)) := by
      apply Real.log_lt_log (by norm_num)
      norm_num
    rw [Real.log_pow, Real.log_pow] at h
    push_cast at h
    linarith
  linarith

/-- Upper exponential certificate: exp(6088/14625) is below 200/131,
by a four-term Taylor expansion with the standard remainder bound. -/
lemma exp_upper_cert : Real.exp (6088 / 14625) < 200 / 131 := by
  have hx0 : (0 : ℝ) ≤ 6088 / 14625 := by norm_num
  have hx1 : (6088 : ℝ) / 14625 ≤ 1 := by norm_num
  have h := Real.exp_bound' hx0 hx1 (n := 4) (by norm_num)
  have hsum : (∑ m ∈ Finset.range 4, ((6088 : ℝ) / 14625) ^ m / m.factorial)
      + ((6088 : ℝ) / 14625) ^ 4 * (4 + 1) / (Nat.factorial 4 * 4) < 200 / 131 := by
    rw [Finset.sum_range_succ, Finset.sum_range_succ, Finset.sum_range_succ,
      Finset.sum_range_one]
    norm_num [Nat.factorial]
  calc Real.exp (6088 / 14625)
      ≤ (∑ m ∈ Finset.range 4, ((6088 : ℝ) / 14625) ^ m / m.factorial)
        + ((6088 : ℝ) / 14625) ^ 4 * (4 + 1) / (Nat.factorial 4 * 4) := by
        exact_mod_cast h
    _ < 200 / 131 := hsum

/-- Lower exponential certificate: exp(14167/34125) is above 200/133,
already from the first four Taylor terms. -/
lemma exp_lower_cert : (200 : ℝ) / 133 < Real.exp (14167 / 34125) := by
  have hx0 : (0 : ℝ) ≤ 14167 / 34125 := by norm_num
  have h := Real.sum_le_exp_of_nonneg hx0 4
  have hsum : (200 : ℝ) / 133
      < ∑ m ∈ Finset.range 4, ((14167 : ℝ) / 34125) ^ m / m.factorial := by
    rw [Finset.sum_range_succ, Finset.sum_range_succ, Finset.sum_range_succ,
      Finset.sum_range_one]
    norm_num [Nat.factorial]
  exact lt_of_lt_of_le hsum h

lemma penalty_exCritical : penalty exCritical = 432 / 25 := by
  unfold penalty
  have h1 : getPredictedSeverityScore exCritical = 5 := rfl
  have h2 : getPredictionConfidence exCritical = 9 / 10 := by
    show max 0 (min 1 (9 / 10 : ℚ)) = 9 / 10
    rw [min_eq_right (by norm_num : (9 / 10 : ℚ) ≤ 1),
      max_eq_right (by norm_num : (0 : ℚ) ≤ 9 / 10)]
  have h4 : instCount exCritical = 1 := rfl
  rw [h1, h2, h4, instanceMultiplier_one]
  have h3 : severityWeight 5 = 18 := by norm_num [severityWeight]
  have h5 : confidenceMultiplier (9 / 10) = 24 / 25 := by norm_num [confidenceMultiplier]
  rw [h3, h5]
  push_cast
  ring

lemma instanceMultiplier_five : instanceMultiplier 5 = 1 + Real.logb 2 5 / 3 := by
  unfold instanceMultiplier
  have h : cappedInstances 5 = 5 := by decide
  rw [h]
  norm_num

lemma penalty_exModerate : penalty exModerate = 23 / 5 * (1 + Real.logb 2 5 / 3) := by
  unfold penalty
  have h1 : getPredictedSeverityScore exModerate = 3 := rfl
  have h2 : getPredictionConfidence exModerate = 4 / 5 := by
    show max 0 (min 1 (8 / 10 : ℚ)) = 4 / 5
    rw [min_eq_right (by norm_num : (8 / 10 : ℚ) ≤ 1),
      max_eq_right (by norm_num : (0 : ℚ) ≤ 8 / 10)]
    norm_num
  have h4 : instCount exModerate = 5 := rfl
  rw [h1, h2, h4, instanceMultiplier_five]
  have h3 : severityWeight 3 = 5 := by norm_num [severityWeight]
  have h5 : confidenceMultiplier (4 / 5) = 23 / 25 := by norm_num [confidenceMultiplier]
  rw [h3, h5]
  push_cast
  ring

lemma penalty_exMinor : penalty exMinor = 8 / 5 := by
  unfold penalty
  have h1 : getPredictedSeverityScore exMinor = 2 := rfl
  have h2 : getPredictionConfidence exMinor = 1 / 2 := by
    show max 0 (min 1 (1 / 2 : ℚ)) = 1 / 2
    rw [min_eq_right (by norm_num : (1 / 2 : ℚ) ≤ 1),
      max_eq_right (by norm_num : (0 : ℚ) ≤ 1 / 2)]
  have h4 : instCount exMinor = 1 := rfl
  rw [h1, h2, h4, instanceMultiplier_one]
  have h3 : severityWeight 2 = 2 := by norm_num [severityWeight]
  have h5 : confidenceMultiplier (1 / 2) = 4 / 5 := by norm_num [confidenceMultiplier]
  rw [h3, h5]
  push_cast
  ring

lemma totalPenalty_example :
    totalPenalty [exCritical, exModerate, exMinor]
      = 432 / 25 + 23 / 5 * (1 + Real.logb 2 5 / 3) + 8 / 5 := by
  rw [totalPenalty_cons, totalPenalty_cons, totalPenalty_cons, totalPenalty_nil,
    penalty_exCritical, penalty_exModerate, penalty_exMinor]
  ring

lemma example_T_lt : totalPenalty [exCritical, exModerate, exMinor] < 6088 / 225 := by
  rw [totalPenalty_example]
  have h := logb_two_five_lt
  nlinarith

lemma example_T_gt : 14167 / 525 < totalPenalty [exCritical, exModerate, exMinor] := by
  rw [totalPenalty_example]
  have h := logb_two_five_gt
  nlinarith

lemma score_example : computeAccessibilityScore0to100 [exCritical, exModerate, exMinor] = 66 := by
  rw [score_eq_unclamped]
  have hlt := example_T_lt
  have hgt := example_T_gt
  set t := totalPenalty [exCritical, exModerate, exMinor] with ht
  have hub : Real.exp (t / 65) < 200 / 131 := by
    apply lt_trans (Real.exp_lt_exp.mpr (show t / 65 < 6088 / 14625 by linarith))
    exact_mod_cast exp_upper_cert
  have hlb : (200 : ℝ) / 133 < Real.exp (t / 65) := by
    apply lt_trans exp_lower_cert
    exact Real.exp_lt_exp.mpr (by linarith)
  have e1 : Real.exp (-t / 65) = (Real.exp (t / 65))⁻¹ := by
    rw [show -t / 65 = -(t / 65) by ring, Real.exp_neg]
  have hinv_lb : ((200 : ℝ) / 131)⁻¹ < (Real.exp (t / 65))⁻¹ :=
    inv_lt_inv_of_lt (Real.exp_pos _) hub
  have hinv_ub : (Real.exp (t / 65))⁻¹ < ((200 : ℝ) / 133)⁻¹ :=
    inv_lt_inv_of_lt (by norm_num) hlb
  have hX_lb : (131 : ℝ) / 2 < 100 * Real.exp (-t / 65) := by
    rw [e1]
    have := mul_lt_mul_of_pos_left hinv_lb (show (0 : ℝ) < 100 by norm_num)
    have hval : (100 : ℝ) * ((200 : ℝ) / 131)⁻¹ = 131 / 2 := by norm_num
    linarith
  have hX_ub : 100 * Real.exp (-t / 65) < (133 : ℝ) / 2 := by
    rw [e1]
    have := mul_lt_mul_of_pos_left hinv_ub (show (0 : ℝ) < 100 by norm_num)
    have hval : (100 : ℝ) * ((200 : ℝ) / 133)⁻¹ = 133 / 2 := by norm_num
    linarith
  exact jsRound_eq (by push_cast; linarith) (by push_cast; linarith)

/-! ## Agreement between the source score and the spec formula -/

lemma severityWeight_eq_spec (s : ℚ) : severityWeight s = specSeverityWeight s := rfl

lemma instanceMultiplier_eq_spec (n : ℕ) :
    instanceMultiplier n = specInstanceMultiplier n := by
  unfold instanceMultiplier specInstanceMultiplier
  rw [cappedInstances_eq_max_min]
  push_cast
  norm_num

lemma penalty_eq_spec (v : Violation) : penalty v = specPenalty (toSpecFinding v) := by
  unfold penalty specPenalty toSpecFinding
  rw [instanceMultiplier_eq_spec]
  rfl

lemma totalPenalty_eq_spec (vs : List Violation) :
    totalPenalty vs = ((vs.map toSpecFinding).map specPenalty).sum := by
  induction vs with
  | nil => simp [totalPenalty_nil]
  | cons v vs ih =>
    rw [totalPenalty_cons, List.map_cons, List.map_cons, List.sum_cons, ih,
      penalty_eq_spec]

lemma score_empty : computeAccessibilityScore0to100 [] = 100 := by
  rw [score_eq_unclamped, totalPenalty_nil]
  have h : 100 * Real.exp (-(0 : ℝ) / 65) = 100 := by
    norm_num
  rw [h]
  exact jsRound_eq (by push_cast; norm_num) (by push_cast; norm_num)

/-! ## Helper facts about the enrichment list and the hard findings -/

lemma enhanceOne_false (r : Except Unit ApiEnhanced) (v : Violation) :
    enhanceOne false r v = { v with mlAnalysis := some (getStaticMLAnalysis v) } := rfl

lemma enhanceOne_error (v : Violation) :
    enhanceOne true (Except.error ()) v
      = { v with mlAnalysis := some (getStaticMLAnalysis v) } := rfl

lemma enhanceOne_ok (d : ApiEnhanced) (v : Violation) :
    enhanceOne true (Except.ok d) v = { v with mlAnalysis := some (mergeRemote d) } := rfl

lemma enhanceList_length (u : Bool) (r : ℕ → Except Unit ApiEnhanced)
    (vs : List Violation) (k : ℕ) : (enhanceList u r vs k).length = vs.length := by
  induction vs generalizing k with
  | nil => rfl
  | cons v vs ih => simp [enhanceList, ih]

lemma enhanceList_getElem? (u : Bool) (r : ℕ → Except Unit ApiEnhanced)
    (vs : List Violation) (i k : ℕ) :
    (enhanceList u r vs k)[i]? = (vs[i]?).map (fun v => enhanceOne u (r (k + i)) v) := by
  induction vs generalizing i k with
  | nil => simp [enhanceList]
  | cons v vs ih =>
    cases i with
    | zero => simp [enhanceList]
    | succ n =>
      simp only [enhanceList, List.getElem?_cons_succ]
      rw [ih]
      have harg : k + 1 + n = k + (n + 1) := by omega
      rw [harg]

lemma enhanceList_false (r : ℕ → Except Unit ApiEnhanced) (vs : List Violation) (k : ℕ) :
    enhanceList false r vs k
      = vs.map (fun v => { v with mlAnalysis := some (getStaticMLAnalysis v) }) := by
  induction vs generalizing k with
  | nil => rfl
  | cons v vs ih => simp [enhanceList, enhanceOne_false, ih]

lemma enhanceWithML_violations (vs : List Violation) (url ts : String) (u : Bool)
    (r : ℕ → Except Unit ApiEnhanced) :
    (enhanceWithML vs url ts u r).violations = enhanceList u r vs 0 := rfl

lemma penalty_vMax : penalty vMax = 18 := by
  unfold penalty
  have h1 : getPredictedSeverityScore vMax = 5 := rfl
  have h2 : getPredictionConfidence vMax = 1 := by
    show max 0 (min 1 (1 : ℚ)) = 1
    rw [min_self, max_eq_right (by norm_num : (0 : ℚ) ≤ 1)]
  have h4 : instCount vMax = 1 := rfl
  rw [h1, h2, h4, instanceMultiplier_one]
  have h3 : severityWeight 5 = 18 := by norm_num [severityWeight]
  have h5 : confidenceMultiplier 1 = 1 := by norm_num [confidenceMultiplier]
  rw [h3, h5]
  push_cast
  ring

lemma conf_exCritical : getPredictionConfidence exCritical = 9 / 10 := by
  show max 0 (min 1 (9 / 10 : ℚ)) = 9 / 10
  rw [min_eq_right (by norm_num : (9 / 10 : ℚ) ≤ 1),
    max_eq_right (by norm_num : (0 : ℚ) ≤ 9 / 10)]

lemma conf_vMax : getPredictionConfidence vMax = 1 := by
  show max 0 (min 1 (1 : ℚ)) = 1
  rw [min_self, max_eq_right (by norm_num : (0 : ℚ) ≤ 1)]

/-! ## Claim theorems -/

/-- Claim C1: for every list of enriched findings the aggregate score
equals round(clamp(100 * exp(-totalPenalty / 65), 0, 100)), where
totalPenalty sums severityWeight(severity) * instanceMultiplier(count) *
confidenceMultiplier(confidence) over the findings with the spec lookup
tables; the three-finding example (critical, 1 instance, confidence 0.9;
moderate, 5 instances, confidence 0.8; minor, 1 instance, confidence 0.5)
yields exactly 66, and the empty list yields 100. -/
theorem c1_score_matches_spec_formula :
    (∀ vs : List Violation,
      computeAccessibilityScore0to100 vs = specAggregateScore (vs.map toSpecFinding)) ∧
    computeAccessibilityScore0to100 [exCritical, exModerate, exMinor] = 66 ∧
    computeAccessibilityScore0to100 [] = 100 := by
  refine ⟨fun vs => ?_, score_example, score_empty⟩
  unfold computeAccessibilityScore0to100 specAggregateScore specClamp
  rw [totalPenalty_eq_spec]

/-- Claim C7: instanceMultiplier is non-decreasing and bounded; its value
at 1 is exactly 1, every value at or below 20 is dominated by the value at
20, and every value beyond 20 equals the value at 20. -/
theorem c7_instanceMultiplier_monotone_bounded :
    instanceMultiplier 1 = 1 ∧
    (∀ n m : ℕ, n ≤ m → instanceMultiplier n ≤ instanceMultiplier m) ∧
    (∀ n : ℕ, n ≤ 20 → instanceMultiplier n ≤ instanceMultiplier 20) ∧
    (∀ n : ℕ, 20 < n → instanceMultiplier n = instanceMultiplier 20) := by
  refine ⟨instanceMultiplier_one, fun n m h => instanceMultiplier_mono h,
    fun n h => instanceMultiplier_mono h, fun n h => ?_⟩
  unfold instanceMultiplier
  have hcap : cappedInstances n = cappedInstances 20 := by
    rw [cappedInstances_eq_max_min, cappedInstances_eq_max_min]
    omega
  rw [hcap]

/-- Witness for C7 at concrete counts. -/
theorem c7_witness :
    instanceMultiplier 3 ≤ instanceMultiplier 7 ∧
    instanceMultiplier 7 ≤ instanceMultiplier 20 ∧
    instanceMultiplier 25 = instanceMultiplier 20 :=
  ⟨c7_instanceMultiplier_monotone_bounded.2.1 3 7 (by norm_num),
   c7_instanceMultiplier_monotone_bounded.2.2.1 7 (by norm_num),
   c7_instanceMultiplier_monotone_bounded.2.2.2 25 (by norm_num)⟩

/-- Claim C10 (implicit): a finding whose nodes list is empty or absent is
not skipped by the score; its instance count defaults to 1, the instance
multiplier degenerates to 1, and it contributes the full penalty
severityWeight * 1 * confidenceMultiplier to the total. -/
theorem c10_default_instance_count :
    ∀ (v : Violation) (rest : List Violation),
      v.nodes = none ∨ v.nodes = some [] →
      instCount v = 1 ∧
      instanceMultiplier (instCount v) = 1 ∧
      totalPenalty (v :: rest)
        = (severityWeight (getPredictedSeverityScore v) : ℝ) * 1
            * (confidenceMultiplier (getPredictionConfidence v) : ℝ)
          + totalPenalty rest := by
  intro v rest h
  have hc : instCount v = 1 := by
    unfold instCount
    rcases h with h | h <;> rw [h] <;> rfl
  refine ⟨hc, by rw [hc, instanceMultiplier_one], ?_⟩
  rw [totalPenalty_cons]
  unfold penalty
  rw [hc, instanceMultiplier_one]

/-- Witness for C10 on a concrete finding without nodes. -/
theorem c10_witness :
    instCount vNoNodes = 1 ∧
    instanceMultiplier (instCount vNoNodes) = 1 ∧
    totalPenalty [vNoNodes]
      = (severityWeight (getPredictedSeverityScore vNoNodes) : ℝ) * 1
          * (confidenceMultiplier (getPredictionConfidence vNoNodes) : ℝ)
        + totalPenalty [] :=
  c10_default_instance_count vNoNodes [] (Or.inl rfl)

/-- Counterexample to claim C4 as stated: every total penalty in this
model is a finite real, yet a list of 200 worst-case findings has total
penalty 3600 and its rounded aggregate score is exactly 0. -/
theorem c4_counterexample :
    computeAccessibilityScore0to100 (List.replicate 200 vMax) = 0 := by
  apply score_eq_zero_of_large
  rw [totalPenalty_replicate, penalty_vMax]
  norm_num

/-- Claim C4 (amended): the exponential value 100 * exp(-totalPenalty/65)
is strictly positive for every finding list, and a single finding cannot by
itself force a rounded score of exactly 0 (its score is strictly
positive); but rounding can drive the score of a large list to 0. -/
theorem c4_positive_score :
    (∀ vs : List Violation, 0 < 100 * Real.exp (-(totalPenalty vs) / 65)) ∧
    (∀ v : Violation, 0 < computeAccessibilityScore0to100 [v]) := by
  constructor
  · intro vs
    positivity
  · intro v
    rw [score_eq_unclamped]
    have ht : totalPenalty [v] = penalty v := by
      rw [totalPenalty_cons, totalPenalty_nil, add_zero]
    have hp48 := penalty_le v
    have hexp : Real.exp (-1 : ℝ) ≤ Real.exp (-(totalPenalty [v]) / 65) := by
      apply Real.exp_le_exp.mpr
      rw [ht]
      linarith
    have hexp1 : (1 / 3 : ℝ) < Real.exp (-1 : ℝ) := by
      rw [Real.exp_neg]
      have h3 : Real.exp 1 < 3 := lt_trans Real.exp_one_lt_d9 (by norm_num)
      have hinv : (3 : ℝ)⁻¹ < (Real.exp 1)⁻¹ := inv_lt_inv_of_lt (Real.exp_pos 1) h3
      have h13 : (1 / 3 : ℝ) = (3 : ℝ)⁻¹ := by norm_num
      linarith
    have hX : (1 : ℝ) ≤ 100 * Real.exp (-(totalPenalty [v]) / 65) := by
      nlinarith
    unfold jsRound
    have : (1 : ℤ) ≤ ⌊100 * Real.exp (-(totalPenalty [v]) / 65) + 1 / 2⌋ := by
      apply Int.le_floor.mpr
      push_cast
      linarith
    omega

/-- Counterexample to claim C5 as stated: raising the confidence of the
first finding of a 200-element list from 0.9 to 1 (severity and instance
count unchanged) leaves the rounded aggregate score unchanged at 0, so the
score is not strictly decreasing in any single confidence. -/
theorem c5_counterexample :
    getPredictionConfidence exCritical < getPredictionConfidence vMax ∧
    getPredictedSeverityScore vMax = getPredictedSeverityScore exCritical ∧
    instCount vMax = instCount exCritical ∧
    computeAccessibilityScore0to100 (vMax :: List.replicate 199 exCritical)
      = computeAccessibilityScore0to100 (exCritical :: List.replicate 199 exCritical) := by
  refine ⟨by rw [conf_exCritical, conf_vMax]; norm_num, rfl, rfl, ?_⟩
  have hA : computeAccessibilityScore0to100 (vMax :: List.replicate 199 exCritical) = 0 := by
    apply score_eq_zero_of_large
    rw [totalPenalty_cons, totalPenalty_replicate, penalty_vMax, penalty_exCritical]
    norm_num
  have hB : computeAccessibilityScore0to100 (exCritical :: List.replicate 199 exCritical)
      = 0 := by
    apply score_eq_zero_of_large
    rw [totalPenalty_cons, totalPenalty_replicate, penalty_exCritical]
    norm_num
  rw [hA, hB]

/-- Claim C5 (amended): the rounded score always lies between 0 and 100;
increasing a single finding's penalty strictly decreases the un-rounded
exponential score and weakly decreases the rounded score; and the penalty
of a finding strictly increases when its severity rises within the 2-5
scale, or when its extracted confidence rises, everything else fixed. -/
theorem c5_bounds_and_monotonicity :
    (∀ vs : List Violation,
      0 ≤ computeAccessibilityScore0to100 vs ∧ computeAccessibilityScore0to100 vs ≤ 100) ∧
    (∀ (pre suf : List Violation) (v v' : Violation),
      penalty v < penalty v' →
      100 * Real.exp (-(totalPenalty (pre ++ v' :: suf)) / 65)
        < 100 * Real.exp (-(totalPenalty (pre ++ v :: suf)) / 65) ∧
      computeAccessibilityScore0to100 (pre ++ v' :: suf)
        ≤ computeAccessibilityScore0to100 (pre ++ v :: suf)) ∧
    (∀ v v' : Violation,
      getPredictedSeverityScore v ∈ ([2, 3, 4, 5] : List ℚ) →
      getPredictedSeverityScore v' ∈ ([2, 3, 4, 5] : List ℚ) →
      getPredictedSeverityScore v < getPredictedSeverityScore v' →
      instCount v' = instCount v →
      getPredictionConfidence v' = getPredictionConfidence v →
      penalty v < penalty v') ∧
    (∀ v v' : Violation,
      getPredictedSeverityScore v' = getPredictedSeverityScore v →
      instCount v' = instCount v →
      getPredictionConfidence v < getPredictionConfidence v' →
      penalty v < penalty v') := by
  refine ⟨fun vs => ⟨score_nonneg vs, score_le_hundred vs⟩, ?_, ?_, ?_⟩
  · intro pre suf v v' hp
    have ht : totalPenalty (pre ++ v :: suf) < totalPenalty (pre ++ v' :: suf) := by
      rw [totalPenalty_append, totalPenalty_append, totalPenalty_cons, totalPenalty_cons]
      linarith
    constructor
    · apply mul_lt_mul_of_pos_left _ (show (0 : ℝ) < 100 by norm_num)
      apply Real.exp_lt_exp.mpr
      linarith
    · exact score_antitone (le_of_lt ht)
  · intro v v' hs hs' hlt hinst hconf
    have hw : severityWeight (getPredictedSeverityScore v)
        < severityWeight (getPredictedSeverityScore v') := by
      simp only [List.mem_cons, List.not_mem_nil, or_false] at hs hs'
      rcases hs with h | h | h | h <;> rcases hs' with g | g | g | g <;>
        rw [h, g] at hlt ⊢ <;> norm_num [severityWeight] at hlt ⊢
    unfold penalty
    rw [hinst, hconf]
    have hwR : (severityWeight (getPredictedSeverityScore v) : ℝ)
        < (severityWeight (getPredictedSeverityScore v') : ℝ) := by
      exact_mod_cast hw
    have hmpos : (0 : ℝ) < instanceMultiplier (instCount v) :=
      lt_of_lt_of_le (by norm_num) (instanceMultiplier_ge_one _)
    have hcpos : (0 : ℝ) < (confidenceMultiplier (getPredictionConfidence v) : ℝ) :=
      lt_of_lt_of_le (by norm_num) (confidenceMultiplier_cast_lb v)
    apply mul_lt_mul_of_pos_right _ hcpos
    exact mul_lt_mul_of_pos_right hwR hmpos
  · intro v v' hs hinst hconf
    unfold penalty
    rw [hs, hinst]
    have hcm : (confidenceMultiplier (getPredictionConfidence v) : ℝ)
        < (confidenceMultiplier (getPredictionConfidence v') : ℝ) := by
      exact_mod_cast confidenceMultiplier_strictMono hconf
    have hwpos : (0 : ℝ) < (severityWeight (getPredictedSeverityScore v) : ℝ) :=
      lt_of_lt_of_le (by norm_num) (severityWeight_cast_lb _)
    have hmpos : (0 : ℝ) < instanceMultiplier (instCount v) :=
      lt_of_lt_of_le (by norm_num) (instanceMultiplier_ge_one _)
    exact mul_lt_mul_of_pos_left hcm (mul_pos hwpos hmpos)

/-- Witness for C5: concrete instantiations of the monotonicity parts,
with every hypothesis discharged on explicit findings. -/
theorem c5_witness :
    (100 * Real.exp (-(totalPenalty ([] ++ vMax :: [])) / 65)
        < 100 * Real.exp (-(totalPenalty ([] ++ exCritical :: [])) / 65) ∧
      computeAccessibilityScore0to100 ([] ++ vMax :: [])
        ≤ computeAccessibilityScore0to100 ([] ++ exCritical :: [])) ∧
    penalty exCritical < penalty vMax ∧
    penalty exMinor < penalty vSeriousHalf := by
  have hpen : penalty exCritical < penalty vMax :=
    c5_bounds_and_monotonicity.2.2.2 exCritical vMax rfl rfl
      (by rw [conf_exCritical, conf_vMax]; norm_num)
  have hsev : penalty exMinor < penalty vSeriousHalf :=
    c5_bounds_and_monotonicity.2.2.1 exMinor vSeriousHalf
      (show (2 : ℚ) ∈ ([2, 3, 4, 5] : List ℚ) by norm_num)
      (show (4 : ℚ) ∈ ([2, 3, 4, 5] : List ℚ) by norm_num)
      (show (2 : ℚ) < 4 by norm_num) rfl rfl
  exact ⟨c5_bounds_and_monotonicity.2.1 [] [] exCritical vMax hpen, hpen, hsev⟩

/-- Counterexample to claim C6 as stated: the report object includes the
clock reading taken during its construction, so recomputing it from the
same enriched finding list at a later instant is not bit-identical. -/
theorem c6_counterexample :
    enhanceWithML [exCritical] "https://example.org" "2024-01-01T00:00:00Z" false remoteFail
      ≠ enhanceWithML [exCritical] "https://example.org" "2024-01-02T00:00:00Z" false
        remoteFail := by
  intro h
  have h2 := congrArg EnhanceReport.timestamp h
  simp [enhanceWithML] at h2

/-- Claim C6 (amended): every field of the report other than the timestamp
is a deterministic pure function of the finding list, the page URL, the
probe outcome and the per-finding request outcomes; recomputation differs
at most in the timestamp. -/
theorem c6_report_deterministic_except_timestamp :
    ∀ (vs : List Violation) (url t1 t2 : String) (useML : Bool)
      (remote : ℕ → Except Unit ApiEnhanced),
      (enhanceWithML vs url t1 useML remote).score
          = (enhanceWithML vs url t2 useML remote).score ∧
      (enhanceWithML vs url t1 useML remote).violations
          = (enhanceWithML vs url t2 useML remote).violations ∧
      (enhanceWithML vs url t1 useML remote).totalViolations
          = (enhanceWithML vs url t2 useML remote).totalViolations ∧
      (enhanceWithML vs url t1 useML remote).criticalCount
          = (enhanceWithML vs url t2 useML remote).criticalCount ∧
      (enhanceWithML vs url t1 useML remote).seriousCount
          = (enhanceWithML vs url t2 useML remote).seriousCount ∧
      (enhanceWithML vs url t1 useML remote).moderateCount
          = (enhanceWithML vs url t2 useML remote).moderateCount ∧
      (enhanceWithML vs url t1 useML remote).avgImpact
          = (enhanceWithML vs url t2 useML remote).avgImpact ∧
      (enhanceWithML vs url t1 useML remote).url
          = (enhanceWithML vs url t2 useML remote).url ∧
      (enhanceWithML vs url t1 useML remote).usingMLAPI
          = (enhanceWithML vs url t2 useML remote).usingMLAPI := by
  intro vs url t1 t2 useML remote
  exact ⟨rfl, rfl, rfl, rfl, rfl, rfl, rfl, rfl, rfl⟩

/-- Claim C3: on a failed health probe every finding receives the static
fallback enrichment and the report is tagged as not using the remote
service; on a healthy probe the report is tagged as remote, the output
list has the input length, the finding at a failed request position alone
receives the fallback enrichment, the finding at every successful position
receives exactly its own remote payload, and each output position is
derived from the same input position, so completion order is irrelevant. -/
theorem c3_fallback_isolation_and_order :
    (∀ (vs : List Violation) (url ts : String) (remote : ℕ → Except Unit ApiEnhanced),
      (enhanceWithML vs url ts false remote).violations
          = vs.map (fun v => { v with mlAnalysis := some (getStaticMLAnalysis v) }) ∧
      (enhanceWithML vs url ts false remote).usingMLAPI = false) ∧
    (∀ (vs : List Violation) (url ts : String) (remote : ℕ → Except Unit ApiEnhanced),
      (enhanceWithML vs url ts true remote).usingMLAPI = true ∧
      (enhanceWithML vs url ts true remote).violations.length = vs.length ∧
      (∀ (j : ℕ) (v : Violation), vs[j]? = some v → remote j = Except.error () →
        ((enhanceWithML vs url ts true remote).violations)[j]?
          = some { v with mlAnalysis := some (getStaticMLAnalysis v) }) ∧
      (∀ (i : ℕ) (v : Violation) (d : ApiEnhanced), vs[i]? = some v →
        remote i = Except.ok d →
        ((enhanceWithML vs url ts true remote).violations)[i]?
          = some { v with mlAnalysis := some (mergeRemote d) })) := by
  constructor
  · intro vs url ts remote
    exact ⟨by rw [enhanceWithML_violations, enhanceList_false], rfl⟩
  · intro vs url ts remote
    refine ⟨rfl, by rw [enhanceWithML_violations, enhanceList_length], ?_, ?_⟩
    · intro j v hv hr
      rw [enhanceWithML_violations, enhanceList_getElem?, hv]
      simp only [Option.map_some, Nat.zero_add]
      rw [hr]
      rfl
    · intro i v d hv hr
      rw [enhanceWithML_violations, enhanceList_getElem?, hv]
      simp only [Option.map_some, Nat.zero_add]
      rw [hr]
      rfl

/-- Witness for C3: two findings, the request at position 0 succeeds and
the one at position 1 fails; only position 1 carries the fallback. -/
theorem c3_witness :
    (enhanceWithML [exCritical, exMinor] "https://example.org" "ts" true remoteW).usingMLAPI
        = true ∧
    ((enhanceWithML [exCritical, exMinor] "https://example.org" "ts" true
        remoteW).violations)[1]?
      = some { exMinor with mlAnalysis := some (getStaticMLAnalysis exMinor) } ∧
    ((enhanceWithML [exCritical, exMinor] "https://example.org" "ts" true
        remoteW).violations)[0]?
      = some { exCritical with mlAnalysis := some (mergeRemote apiPayloadW) } ∧
    (enhanceWithML [exCritical, exMinor] "https://example.org" "ts" false
        remoteFail).violations
      = [exCritical, exMinor].map
          (fun v => { v with mlAnalysis := some (getStaticMLAnalysis v) }) := by
  refine ⟨(c3_fallback_isolation_and_order.2 [exCritical, exMinor] "https://example.org"
      "ts" remoteW).1, ?_, ?_, ?_⟩
  · exact (c3_fallback_isolation_and_order.2 [exCritical, exMinor] "https://example.org"
      "ts" remoteW).2.2.1 1 exMinor rfl rfl
  · exact (c3_fallback_isolation_and_order.2 [exCritical, exMinor] "https://example.org"
      "ts" remoteW).2.2.2 0 exCritical apiPayloadW rfl rfl
  · exact (c3_fallback_isolation_and_order.1 [exCritical, exMinor] "https://example.org"
      "ts" remoteFail).1

/-- Counterexample to claim C2 as stated: nodeTwo has a first selector
matching nothing and a second selector matching element 7, yet the
correlator resolves nothing for it, and activation creates no overlay
node for the violation while still listing it in the panel. -/
theorem c2_counterexample :
    qTwo "#first" = none ∧
    qTwo "#second" = some 7 ∧
    resolveNode qTwo nodeTwo = none ∧
    violationHighlights qTwo vTwo = [] ∧
    (highlightViolations qTwo [vTwo] initialOverlayState).overlayElements = [] ∧
    (highlightViolations qTwo [vTwo] initialOverlayState).sidePanel = some [vTwo] := by
  refine ⟨by decide, by decide, by decide, by decide, ?_, ?_⟩ <;> decide

/-- Claim C2 (amended): the correlator consults only the FIRST selector of
an instance; an instance whose first selector does not match produces no
highlight even when a later selector would match, and a finding with no
resolvable instance produces no overlay nodes, yet activation lists every
finding in the panel and the finding still contributes its penalty to the
score total. -/
theorem c2_first_selector_only :
    (∀ (q : DomQuery) (sel : String) (rest : List String) (h : String),
      resolveNode q { target := sel :: rest, html := h } = q sel) ∧
    (∀ (q : DomQuery) (v : Violation),
      violationHighlights q v = [] → createdNodes q [v] = []) ∧
    (∀ (q : DomQuery) (vs : List Violation) (st : OverlayState), vs ≠ [] →
      (highlightViolations q vs st).sidePanel = some vs ∧
      (highlightViolations q vs st).overlayElements
        = st.overlayElements ++ createdNodes q vs) ∧
    (∀ (v : Violation) (rest : List Violation),
      totalPenalty (v :: rest) = penalty v + totalPenalty rest) := by
  refine ⟨fun q sel rest h => rfl, ?_, ?_, fun v rest => totalPenalty_cons v rest⟩
  · intro q v hv
    unfold createdNodes
    rw [List.map_cons, hv]
    rfl
  · intro q vs st hvs
    unfold highlightViolations
    rw [if_neg hvs]
    exact ⟨rfl, rfl⟩

/-- Witness for C2 on the concrete DOM snapshot and finding. -/
theorem c2_witness :
    resolveNode qTwo { target := "#first" :: ["#second"], html := "" } = qTwo "#first" ∧
    createdNodes qTwo [vTwo] = [] ∧
    (highlightViolations qTwo [vTwo] initialOverlayState).sidePanel = some [vTwo] ∧
    totalPenalty [vTwo] = penalty vTwo + totalPenalty [] :=
  ⟨c2_first_selector_only.1 qTwo "#first" ["#second"] "",
   c2_first_selector_only.2.1 qTwo vTwo (by decide),
   (c2_first_selector_only.2.2.1 qTwo [vTwo] initialOverlayState (by decide)).1,
   c2_first_selector_only.2.2.2 vTwo []⟩

/-- Counterexample to claim C8 as stated: after an activation that
registered the window resize and scroll listeners, the deactivate
operation leaves both registrations in place (the source never calls
removeEventListener), so not every attached listener is detached. -/
theorem c8_counterexample :
    (removeAllOverlays (highlightViolations qAll [vTwo]
      initialOverlayState)).windowListeners = ["resize", "scroll"] := by
  decide

/-- Claim C8 (amended): deactivation removes every overlay DOM node, the
tooltip and the side panel, and resets both global flags, and a subsequent
activation on an unchanged finding set reproduces exactly the number of
overlay nodes of the first activation; the window scroll and resize
listener registrations however survive deactivation unchanged. -/
theorem c8_deactivate_resets_dom_but_not_listeners :
    (∀ st : OverlayState,
      (removeAllOverlays st).overlayElements = [] ∧
      (removeAllOverlays st).tooltip = false ∧
      (removeAllOverlays st).sidePanel = none ∧
      (removeAllOverlays st).listenersAdded = false ∧
      (removeAllOverlays st).overlayInjected = false ∧
      (removeAllOverlays st).windowListeners = st.windowListeners) ∧
    (∀ (q : DomQuery) (vs : List Violation),
      (highlightViolations q vs (removeAllOverlays
          (highlightViolations q vs initialOverlayState))).overlayElements.length
        = (highlightViolations q vs initialOverlayState).overlayElements.length) := by
  refine ⟨fun st => ⟨rfl, rfl, rfl, rfl, rfl, rfl⟩, ?_⟩
  intro q vs
  by_cases h : vs = []
  · simp [highlightViolations, removeAllOverlays, initialOverlayState, h]
  · simp [highlightViolations, removeAllOverlays, initialOverlayState, h]

/-- Claim C9: the accordion click handler preserves mutual exclusion of
expanded entries from any state satisfying it, the initial all-collapsed
state satisfies it, and clicking a collapsed entry B while A is expanded
leaves exactly B expanded and A collapsed. -/
theorem c9_accordion_single_open :
    (∀ (s : ℕ → Bool) (i : ℕ), atMostOneOpen s → atMostOneOpen (accordionClick s i)) ∧
    atMostOneOpen (fun _ => false) ∧
    (∀ (s : ℕ → Bool) (A B : ℕ), s A = true → s B = false →
      accordionClick s B B = true ∧
      accordionClick s B A = false ∧
      atMostOneOpen (accordionClick s B)) := by
  refine ⟨?_, ?_, ?_⟩
  · intro s i hs
    unfold accordionClick
    by_cases hsi : s i = true
    · rw [if_pos hsi]
      intro j k hj hk
      have hj' : (if j = i then false else s j) = true := hj
      have hk' : (if k = i then false else s k) = true := hk
      by_cases hji : j = i
      · rw [if_pos hji] at hj'
        exact absurd hj' (by simp)
      · rw [if_neg hji] at hj'
        by_cases hki : k = i
        · rw [if_pos hki] at hk'
          exact absurd hk' (by simp)
        · rw [if_neg hki] at hk'
          exact hs j k hj' hk'
    · rw [if_neg hsi]
      intro j k hj hk
      have hj' : (j == i) = true := hj
      have hk' : (k == i) = true := hk
      rw [Nat.beq_eq_true_eq] at hj' hk'
      rw [hj', hk']
  · intro j k hj _
    exact absurd hj (by simp)
  · intro s A B hA hB
    have hAB : A ≠ B := by
      intro h
      rw [h, hB] at hA
      exact absurd hA (by simp)
    unfold accordionClick
    rw [if_neg (by rw [hB]; simp)]
    refine ⟨by simp, by simp [hAB], ?_⟩
    intro j k hj hk
    have hj' : (j == B) = true := hj
    have hk' : (k == B) = true := hk
    rw [Nat.beq_eq_true_eq] at hj' hk'
    rw [hj', hk']

/-- Witness for C9: clicking entry 1 while entry 0 is expanded in a
two-entry accordion yields entry 1 expanded and entry 0 collapsed. -/
theorem c9_witness :
    accordionClick (fun n => n == 0) 1 1 = true ∧
    accordionClick (fun n => n == 0) 1 0 = false ∧
    atMostOneOpen (accordionClick (fun n => n == 0) 1) :=
  c9_accordion_single_open.2.2 (fun n => n == 0) 0 1 rfl rfl

end AccessGuru
